import Mathlib

/-!
Verification of the Corvus contract-management backend (src/backend/server.py).

The development shallowly embeds the reminder-sweep engine of the backend:
calendar dates and day arithmetic (Python `datetime.date` and `timedelta`),
the tenure parser and expiry computation (`calculate_expiry_date`), the
reminder-email renderer (`create_reminder_email`), the daily reminder sweep
(`check_and_send_reminders`) and the renewal operation (`renew_contract`).

Modelling conventions:
* Python `datetime.date` becomes the `Date` structure (year/month/day) with
  validity following Python (year 1..9999, day bounded by the month length).
* `timedelta(days = n)` addition becomes iterated calendar successor,
  `none` when the result would pass `date.max` and Python raises
  `OverflowError` (`addDaysChecked`); `(a - b).days` becomes a difference
  of civil day numbers (`daysFromCivil`), the standard days-since-epoch
  formula.
* The MongoDB repository and the SMTP sender are external collaborators; they
  are modelled by a `SweepEnv` of per-contract oracles giving the delivery
  outcome of `send_email` and whether each repository `update_one` call or the
  initial contract parse raises.  A raised exception is caught by the
  per-contract `except` clause of the sweep; the model records it in the
  `errored` field of the step result and applies no further effects for that
  contract, exactly as the Python `continue` does.
* `last_reminder_sent` is a `datetime` in Python but the sweep only ever uses
  its `.date()` projection, so it is modelled by its date.
* String fields irrelevant to control flow (the HTML boilerplate of the email
  body, `strftime` month names) are abbreviated; the urgency ladder, the
  chosen subject line and the message skeleton are kept.
-/

/-- A calendar date, as Python's `datetime.date`: year, month (1-12),
day (1-length of month). -/
structure Date where
  year : Int
  month : Nat
  day : Nat
deriving DecidableEq, Repr

/-- Gregorian leap-year rule, as used by Python's `calendar`/`datetime`. -/
def isLeapYear (y : Int) : Bool :=
  y % 4 == 0 && (y % 100 != 0 || y % 400 == 0)

/-- Length of a month in a given year. -/
def daysInMonth (y : Int) (m : Nat) : Nat :=
  if m = 2 then (if isLeapYear y then 29 else 28)
  else if m = 4 ∨ m = 6 ∨ m = 9 ∨ m = 11 then 30
  else 31

/-- Whether `(year, month, day)` is a constructible Python `datetime.date`:
the `date(...)` constructor raises `ValueError` outside these bounds. -/
def isValidDate (d : Date) : Bool :=
  1 ≤ d.year && d.year ≤ 9999 &&
  1 ≤ d.month && d.month ≤ 12 &&
  1 ≤ d.day && d.day ≤ daysInMonth d.year d.month

/-- Python's `date(year, month, day)` constructor: `some` on a valid triple,
`none` models the `ValueError` the constructor raises otherwise. -/
def mkDate (y : Int) (m d : Nat) : Option Date :=
  if isValidDate ⟨y, m, d⟩ then some ⟨y, m, d⟩ else none

/-- Calendar successor of a date (the effect of adding `timedelta(days=1)`). -/
def nextDay (d : Date) : Date :=
  if d.day < daysInMonth d.year d.month then ⟨d.year, d.month, d.day + 1⟩
  else if d.month < 12 then ⟨d.year, d.month + 1, 1⟩
  else ⟨d.year + 1, 1, 1⟩

/-- Iterated calendar successor, unbounded (years past 9999 are produced
structurally but are not constructible Python dates; `addDaysChecked`
below enforces the Python bound where the source performs the addition). -/
def addDays (d : Date) : Nat → Date
  | 0 => d
  | n + 1 => nextDay (addDays d n)

/-- Python `start + timedelta(days = n)`: the addition raises
`OverflowError` when the result would pass `date.max` (9999-12-31),
modelled by `none`; otherwise it yields the iterated successor. -/
def addDaysChecked (d : Date) (n : Nat) : Option Date :=
  if isValidDate (addDays d n) then some (addDays d n) else none

/-- Day number of a date counted from the epoch 1970-01-01 (the civil
day-count formula).  Python's `(a - b).days` equals
`daysFromCivil a - daysFromCivil b`. -/
def daysFromCivil (d : Date) : Int :=
  let y : Int := if d.month ≤ 2 then d.year - 1 else d.year
  let era : Int := Int.fdiv y 400
  let yoe : Int := y - era * 400
  let mp : Int := (Int.ofNat d.month + 9) % 12
  let doy : Int := Int.fdiv (153 * mp + 2) 5 + Int.ofNat d.day - 1
  let doe : Int := yoe * 365 + Int.fdiv yoe 4 - Int.fdiv yoe 100 + doy
  era * 146097 + doe - 719468

/-- Python's `(contract.expiry_date - today).days`, the signed number of days
remaining, used throughout `check_and_send_reminders`. -/
def days_until_expiry (today expiry : Date) : Int :=
  daysFromCivil expiry - daysFromCivil today

/-- Python date comparison `a < b` (lexicographic on year, month, day). -/
def dateLt (a b : Date) : Bool :=
  decide (a.year < b.year ∨
    (a.year = b.year ∧ (a.month < b.month ∨
      (a.month = b.month ∧ a.day < b.day))))

/-- Contract status enum: regex-validated field
`^(Active|Expired|Renewed)$` in the pydantic model. -/
inductive Status
  | Active
  | Expired
  | Renewed
deriving DecidableEq, Repr

/-- The contract record, restricted to the fields the sweep and the renewal
operation read or write (`id`, `name`, `client`, `contact_email`,
`start_date`, `expiry_date`, `status`, `last_reminder_sent`); audit
timestamps are elided.  `last_reminder_sent` is kept as its date projection,
the only part the code ever uses. -/
structure Contract where
  id : Nat
  name : String
  client : String
  contact_email : String
  start_date : Date
  expiry_date : Date
  status : Status
  last_reminder_sent : Option Date
deriving DecidableEq, Repr

/-- The sentinel substituted for a missing `contact_email`
(`'unknown@example.com'` in `check_and_send_reminders` and the read paths). -/
def unknownEmail : String := "unknown@example.com"

/-- Content of a reminder email as far as the claims are concerned: the
urgency banner text and the message line chosen by the branch ladder of
`create_reminder_email`.  The surrounding HTML boilerplate is constant and
elided. -/
structure EmailContent where
  urgency_text : String
  message : String
deriving DecidableEq, Repr

/-- Simple rendering of a date for interpolation into the message (the
Python code uses `strftime` with an English month name; the exact text of
the date inside the message is irrelevant to every claim). -/
def isoString (d : Date) : String :=
  toString d.year ++ "-" ++ toString d.month ++ "-" ++ toString d.day

/-- Embedding of `create_reminder_email`.  The Python function assigns the
urgency variables only under `days_remaining <= 0`, `<= 7` or `<= 30`; for
`days_remaining > 30` the subsequent f-string references unassigned local
variables and raises `UnboundLocalError` — modelled by `none`. -/
def create_reminder_email (contract_name client_name expiry_str : String)
    (days_remaining : Int) : Option EmailContent :=
  if days_remaining ≤ 0 then
    some ⟨"EXPIRED",
      "Your contract " ++ contract_name ++ " with " ++ client_name ++
        " has expired on " ++ expiry_str ++
        ". Please take immediate action to renew or review this contract."⟩
  else if days_remaining ≤ 7 then
    some ⟨"CRITICAL",
      "Your contract " ++ contract_name ++ " with " ++ client_name ++
        " will expire in " ++ toString days_remaining ++ " days on " ++
        expiry_str ++ ". Immediate attention required!"⟩
  else if days_remaining ≤ 30 then
    some ⟨"WARNING",
      "Your contract " ++ contract_name ++ " with " ++ client_name ++
        " will expire in " ++ toString days_remaining ++ " days on " ++
        expiry_str ++ ". Please start renewal process."⟩
  else none

/-- Subject line chosen by `check_and_send_reminders` before delivery:
base subject, escalated for `days <= 7` and again for `days <= 0`. -/
def reminder_subject (nm : String) (days : Int) : String :=
  if days ≤ 0 then "URGENT - Contract EXPIRED: " ++ nm
  else if days ≤ 7 then
    "CRITICAL - Contract Expires in " ++ toString days ++ " days: " ++ nm
  else "Contract Expiry Reminder: " ++ nm

/-- Urgency tier implicit in the shared branch ladder of
`create_reminder_email` and the subject selection: first matching bound
wins. -/
inductive Tier
  | none
  | warning
  | critical
  | expired
deriving DecidableEq, Repr

/-- Tier of a number of remaining days, following the branch order of the
source (`<= 0`, then `<= 7`, then `<= 30`, else no-reminder territory). -/
def tierOf (days : Int) : Tier :=
  if days ≤ 0 then Tier.expired
  else if days ≤ 7 then Tier.critical
  else if days ≤ 30 then Tier.warning
  else Tier.none

/-- The eligibility test of `check_and_send_reminders` (lines 342-348):
within 30 days of expiry (or past it) and no reminder recorded today or
later. -/
def should_send_reminder (today : Date) (c : Contract) : Bool :=
  decide (days_until_expiry today c.expiry_date ≤ 30) &&
    (match c.last_reminder_sent with
     | none => true
     | some d => dateLt d today)

/-- External collaborators of one sweep, as per-contract oracles keyed by
contract id: the boolean result of `send_email`, and whether the initial
parse/validation (`parse_from_mongo` / `Contract(**...)`), the
`last_reminder_sent` update or the status update raises. -/
structure SweepEnv where
  emailSentResult : Nat → Bool
  parseThrows : Nat → Bool
  updateReminderThrows : Nat → Bool
  updateStatusThrows : Nat → Bool

/-- Observable outcome of processing one contract inside the sweep loop:
the contract's persisted state afterwards, whether the iteration
incremented `reminder_count`, whether `send_email` was invoked, whether the
email renderer hit its unassigned-variable branch, and whether the
per-contract `except` clause caught an exception. -/
structure StepResult where
  contract : Contract
  counted : Bool
  attempted_send : Bool
  render_failed : Bool
  errored : Bool
deriving DecidableEq, Repr

/-- One iteration of the `for contract_data in contracts` loop of
`check_and_send_reminders`, with its `try/except ... continue` wrapper.
Control flow follows the source line by line: eligibility test; `continue`
on the unknown-email sentinel; email rendering (which can only fail for
`days > 30`); delivery; on success the `last_reminder_sent` update then the
count increment; finally the conditional status write, all cut short by any
modelled exception. -/
def process_contract (env : SweepEnv) (today : Date) (c : Contract) :
    StepResult :=
  if env.parseThrows c.id then ⟨c, false, false, false, true⟩
  else
    let days := days_until_expiry today c.expiry_date
    if should_send_reminder today c then
      if c.contact_email == unknownEmail then ⟨c, false, false, false, false⟩
      else
        match create_reminder_email c.name c.client
            (isoString c.expiry_date) days with
        | none => ⟨c, false, false, true, true⟩
        | some _body =>
          if env.emailSentResult c.id then
            if env.updateReminderThrows c.id then ⟨c, false, true, false, true⟩
            else
              let c1 : Contract := { c with last_reminder_sent := some today }
              if days ≤ 0 ∧ c.status ≠ Status.Expired then
                if env.updateStatusThrows c.id then ⟨c1, true, true, false, true⟩
                else ⟨{ c1 with status := Status.Expired }, true, true, false,
                  false⟩
              else ⟨c1, true, true, false, false⟩
          else
            if days ≤ 0 ∧ c.status ≠ Status.Expired then
              if env.updateStatusThrows c.id then ⟨c, false, true, false, true⟩
              else ⟨{ c with status := Status.Expired }, false, true, false,
                false⟩
            else ⟨c, false, true, false, false⟩
    else ⟨c, false, false, false, false⟩

/-- The sweep `check_and_send_reminders` over a snapshot of contracts:
processes each contract in order, accumulating the persisted states and the
`reminder_count` total it logs at the end. -/
def check_and_send_reminders (env : SweepEnv) (today : Date) :
    List Contract → List Contract × Nat
  | [] => ([], 0)
  | c :: rest =>
    let r := process_contract env today c
    let p := check_and_send_reminders env today rest
    (r.contract :: p.1, (if r.counted then 1 else 0) + p.2)

/-- Embedding of the `renew_contract` endpoint's update: new expiry date,
status reset to `Active`, `last_reminder_sent` cleared, and the contact
email replaced when one is supplied. -/
def renew_contract (c : Contract) (new_expiry : Date)
    (new_email : Option String) : Contract :=
  { c with
    expiry_date := new_expiry
    status := Status.Active
    last_reminder_sent := none
    contact_email := match new_email with
      | some e => e
      | none => c.contact_email }

/-- Units a tenure string can denote in `calculate_expiry_date`. -/
inductive TenureUnit
  | day
  | week
  | month
  | year
deriving DecidableEq, Repr

/-- Boolean list-prefix test on characters. -/
def listStartsWith : List Char → List Char → Bool
  | [], _ => true
  | _ :: _, [] => false
  | a :: as, b :: bs => a == b && listStartsWith as bs

/-- Boolean substring test on character lists. -/
def listContainsSeq (pat : List Char) : List Char → Bool
  | [] => pat.isEmpty
  | c :: rest => listStartsWith pat (c :: rest) || listContainsSeq pat rest

/-- Python's `word in tenure_lower` substring test. -/
def strContains (s pat : String) : Bool :=
  listContainsSeq pat.toList s.toList

/-- Python's `str.lower()` (ASCII case folding suffices here). -/
def lowerStr (s : String) : String :=
  String.mk (s.toList.map Char.toLower)

/-- Python's `any(word in tenure_lower for word in ws)`. -/
def containsAny (s : String) (ws : List String) : Bool :=
  ws.any (fun w => strContains s w)

/-- Year-family keywords of `calculate_expiry_date`. -/
def yearWords : List String := ["year", "yr", "annual"]

/-- Month-family keywords of `calculate_expiry_date`. -/
def monthWords : List String := ["month", "mo", "monthly"]

/-- Day-family keywords of `calculate_expiry_date`. -/
def dayWords : List String := ["day", "daily"]

/-- Week-family keywords of `calculate_expiry_date`. -/
def weekWords : List String := ["week", "weekly"]

/-- The keyword-family ladder of `calculate_expiry_date`, applied to the
lowercased tenure text: year, month, day, week families in source order,
with the source's else-branch defaulting to months. -/
def classify_unit (tenure_lower : String) : TenureUnit :=
  if containsAny tenure_lower yearWords then TenureUnit.year
  else if containsAny tenure_lower monthWords then TenureUnit.month
  else if containsAny tenure_lower dayWords then TenureUnit.day
  else if containsAny tenure_lower weekWords then TenureUnit.week
  else TenureUnit.month

/-- The first maximal run of digit characters in a list, if any: the
semantics of `re.findall(r'\d+', s)[0]`. -/
def firstDigitRun : List Char → Option (List Char)
  | [] => none
  | c :: rest =>
    if c.isDigit then some (c :: rest.takeWhile Char.isDigit)
    else firstDigitRun rest

/-- Numeric value of a digit run (Python's `int` on the matched text). -/
def digitsToNat (ds : List Char) : Nat :=
  ds.foldl (fun a c => 10 * a + (c.toNat - 48)) 0

/-- `int(re.findall(r'\d+', s)[0])` with `none` for the `if not numbers`
early return of `calculate_expiry_date`. -/
def extract_number (s : String) : Option Nat :=
  (firstDigitRun s.toList).map digitsToNat

/-- The parsing front half of `calculate_expiry_date`: the extracted count
paired with the classified unit (the classification itself cannot fail). -/
def parse_tenure (s : String) : Option (Nat × TenureUnit) :=
  (extract_number s).map (fun n => (n, classify_unit (lowerStr s)))

/-- The month-unit arithmetic of `calculate_expiry_date`:
`year = start.year + (start.month + number - 1) // 12`,
`month = (start.month + number - 1) % 12 + 1`, day unchanged, fed to the
`date` constructor. -/
def add_months (start : Date) (n : Nat) : Option Date :=
  mkDate (start.year + Int.ofNat ((start.month + n - 1) / 12))
    ((start.month + n - 1) % 12 + 1) start.day

/-- Embedding of `calculate_expiry_date` (the start date is taken already
parsed from its ISO string; the claims quantify over valid start dates).
The broad `except` of the source turns any `ValueError` from the `date`
constructor into `None` — reproduced by `mkDate`/`add_months` — and any
`OverflowError` from `timedelta` addition past `date.max` into `None` —
reproduced by `addDaysChecked`. -/
def calculate_expiry_date (start : Date) (tenure : String) : Option Date :=
  match extract_number tenure with
  | none => none
  | some n =>
    match classify_unit (lowerStr tenure) with
    | TenureUnit.year => mkDate (start.year + Int.ofNat n) start.month start.day
    | TenureUnit.month => add_months start n
    | TenureUnit.day => addDaysChecked start n
    | TenureUnit.week => addDaysChecked start (7 * n)

/-- A benign environment: every delivery succeeds and nothing raises. -/
def envOK : SweepEnv :=
  ⟨fun _ => true, fun _ => false, fun _ => false, fun _ => false⟩

/-- A fixed reference date used by the concrete scenarios. -/
def today0 : Date := ⟨2025, 1, 10⟩

/-- Expired contract whose contact address is the unknown sentinel. -/
def cSentinel : Contract :=
  { id := 1, name := "A", client := "B", contact_email := unknownEmail
    start_date := ⟨2024, 1, 1⟩, expiry_date := ⟨2025, 1, 1⟩
    status := Status.Active, last_reminder_sent := none }

/-- Expired contract with a deliverable address whose reminder was already
recorded earlier today. -/
def cSentToday : Contract :=
  { id := 2, name := "C", client := "D", contact_email := "c@x.com"
    start_date := ⟨2024, 1, 1⟩, expiry_date := ⟨2025, 1, 1⟩
    status := Status.Active, last_reminder_sent := some today0 }

/-- An environment where every delivery fails (SMTP returns `False`) and
nothing raises. -/
def envFail : SweepEnv :=
  ⟨fun _ => false, fun _ => false, fun _ => false, fun _ => false⟩

/-- An environment where delivery succeeds everywhere but the
`last_reminder_sent` repository update raises for contract id 2. -/
def env3 : SweepEnv :=
  ⟨fun _ => true, fun _ => false, fun i => i == 2, fun _ => false⟩

/-- Expired contract with a deliverable address and no reminder on record. -/
def cExpiredOK : Contract :=
  { id := 3, name := "E", client := "F", contact_email := "e@x.com"
    start_date := ⟨2024, 1, 1⟩, expiry_date := ⟨2025, 1, 1⟩
    status := Status.Active, last_reminder_sent := none }

/-- Contract whose expiry is far beyond the 30-day window. -/
def cFar : Contract :=
  { id := 4, name := "G", client := "H", contact_email := "g@x.com"
    start_date := ⟨2024, 6, 1⟩, expiry_date := ⟨2025, 6, 1⟩
    status := Status.Active, last_reminder_sent := none }

/-- First eligible contract of the three-contract isolation scenario. -/
def k1 : Contract :=
  { id := 1, name := "K1", client := "L1", contact_email := "k1@x.com"
    start_date := ⟨2024, 1, 1⟩, expiry_date := ⟨2025, 1, 20⟩
    status := Status.Active, last_reminder_sent := none }

/-- Second eligible contract of the scenario; `env3` makes its repository
update raise. -/
def k2 : Contract :=
  { id := 2, name := "K2", client := "L2", contact_email := "k2@x.com"
    start_date := ⟨2024, 1, 1⟩, expiry_date := ⟨2025, 1, 25⟩
    status := Status.Active, last_reminder_sent := none }

/-- Third eligible contract of the three-contract isolation scenario. -/
def k3 : Contract :=
  { id := 3, name := "K3", client := "L3", contact_email := "k3@x.com"
    start_date := ⟨2024, 1, 1⟩, expiry_date := ⟨2025, 2, 1⟩
    status := Status.Active, last_reminder_sent := none }

/-! ## Helper lemmas shared by the claim theorems -/

theorem tierOf_eq_none_iff (d : Int) : tierOf d = Tier.none ↔ 30 < d := by
  unfold tierOf
  split_ifs <;> simp <;> omega

theorem tierOf_eq_expired_iff (d : Int) : tierOf d = Tier.expired ↔ d ≤ 0 := by
  unfold tierOf
  split_ifs <;> simp <;> omega

theorem tierOf_eq_critical_iff (d : Int) :
    tierOf d = Tier.critical ↔ (0 < d ∧ d ≤ 7) := by
  unfold tierOf
  split_ifs <;> simp <;> omega

theorem tierOf_eq_warning_iff (d : Int) :
    tierOf d = Tier.warning ↔ (7 < d ∧ d ≤ 30) := by
  unfold tierOf
  split_ifs <;> simp <;> omega

theorem dateLt_irrefl (d : Date) : dateLt d d = false := by
  simp [dateLt]

theorem dateLt_trans {a b c : Date} (h1 : dateLt a b = true)
    (h2 : dateLt b c = true) : dateLt a c = true := by
  simp only [dateLt, decide_eq_true_eq] at h1 h2 ⊢
  omega

theorem should_send_iff (today : Date) (c : Contract) :
    should_send_reminder today c = true ↔
      (days_until_expiry today c.expiry_date ≤ 30 ∧
        (c.last_reminder_sent = none ∨
          ∃ d, c.last_reminder_sent = some d ∧ dateLt d today = true)) := by
  cases h : c.last_reminder_sent with
  | none => simp [should_send_reminder, h]
  | some d => simp [should_send_reminder, h]

theorem create_reminder_email_some (nm cl ex : String) (d : Int)
    (h : d ≤ 30) :
    ∃ ec, create_reminder_email nm cl ex d = some ec := by
  unfold create_reminder_email
  split_ifs with h1 h2
  · exact ⟨_, rfl⟩
  · exact ⟨_, rfl⟩
  · exact ⟨_, rfl⟩

theorem create_reminder_email_none_iff (nm cl ex : String) (d : Int) :
    create_reminder_email nm cl ex d = none ↔ 30 < d := by
  unfold create_reminder_email
  split_ifs <;> simp <;> omega

/-! ## Claim theorems -/

/-- C1 counterexample: the claim that the sweep persists `status = Expired`
for every past-due non-expired contract fails on the code at two concrete
inputs.  `cSentinel` is past due with the unknown-address sentinel: the
`continue` skips the status write along with the notification.  `cSentToday`
is past due but its reminder was already recorded today, so
`should_send_reminder` is false and the status write, nested inside that
branch, never runs. -/
theorem sweep_expired_write_skipped_counterexample :
    days_until_expiry today0 cSentinel.expiry_date ≤ 0 ∧
    cSentinel.status ≠ Status.Expired ∧
    (process_contract envOK today0 cSentinel).contract.status ≠
      Status.Expired ∧
    days_until_expiry today0 cSentToday.expiry_date ≤ 0 ∧
    cSentToday.status ≠ Status.Expired ∧
    (process_contract envOK today0 cSentToday).contract.status ≠
      Status.Expired := by
  decide

/-- C1 (amended): the sweep persists `status = Expired` for a past-due
non-expired contract only on the path where a send is attempted (reminder
due and contact address not the unknown sentinel); on that path the write is
applied regardless of the delivery outcome.  When the contact address is the
sentinel, or when no reminder is due (e.g. one was already recorded today),
the contract is left entirely unchanged, status write included. -/
theorem sweep_expired_write_on_send_path (env : SweepEnv) (today : Date)
    (c : Contract)
    (hp : env.parseThrows c.id = false)
    (hr : env.updateReminderThrows c.id = false)
    (hst : env.updateStatusThrows c.id = false) :
    (should_send_reminder today c = true →
      (c.contact_email == unknownEmail) = false →
      days_until_expiry today c.expiry_date ≤ 0 →
      c.status ≠ Status.Expired →
      (process_contract env today c).contract.status = Status.Expired) ∧
    (should_send_reminder today c = true →
      c.contact_email = unknownEmail →
      (process_contract env today c).contract = c) ∧
    (should_send_reminder today c = false →
      (process_contract env today c).contract = c) := by
  refine ⟨?_, ?_, ?_⟩
  · intro hs he hd hx
    have h30 : days_until_expiry today c.expiry_date ≤ 30 := by omega
    obtain ⟨ec, hec⟩ :=
      create_reminder_email_some c.name c.client (isoString c.expiry_date) _
        h30
    cases hsent : env.emailSentResult c.id <;>
      simp [process_contract, hp, hs, he, hec, hsent, hr, hst, hd, hx]
  · intro hs he
    simp [process_contract, hp, hs, he]
  · intro hns
    simp [process_contract, hp, hns]

/-- C1 witness: a concrete past-due contract with a deliverable address is
marked `Expired` by the sweep. -/
theorem sweep_expired_write_on_send_path_witness :
    (process_contract envOK today0 cExpiredOK).contract.status =
      Status.Expired :=
  (sweep_expired_write_on_send_path envOK today0 cExpiredOK rfl rfl rfl).1
    (by decide) (by decide) (by decide) (by decide)

/-- C3 counterexample: a contract in reminder territory (tier is not None)
with no reminder ever recorded, whose contact address is the unknown
sentinel, gets no send attempt — refuting the claim that a send is attempted
exactly when the tier is not None and no reminder was recorded today. -/
theorem send_attempt_sentinel_counterexample :
    tierOf (days_until_expiry today0 cSentinel.expiry_date) ≠ Tier.none ∧
    cSentinel.last_reminder_sent = none ∧
    (process_contract envOK today0 cSentinel).attempted_send = false := by
  decide

/-- C3 (amended): at most one send attempt per contract per calendar day —
a reminder recorded today blocks any further attempt regardless of prior
outcomes — and a send is attempted exactly when the tier is not None, no
reminder is recorded for today or later, and the contact address is not the
unknown sentinel. -/
theorem send_attempt_characterization (env : SweepEnv) (today : Date)
    (c : Contract)
    (hp : env.parseThrows c.id = false) :
    (c.last_reminder_sent = some today →
      (process_contract env today c).attempted_send = false) ∧
    ((process_contract env today c).attempted_send = true ↔
      (tierOf (days_until_expiry today c.expiry_date) ≠ Tier.none ∧
        (c.last_reminder_sent = none ∨
          ∃ d, c.last_reminder_sent = some d ∧ dateLt d today = true) ∧
        c.contact_email ≠ unknownEmail)) := by
  constructor
  · intro hl
    have hss : should_send_reminder today c = false := by
      simp [should_send_reminder, hl, dateLt_irrefl]
    simp [process_contract, hp, hss]
  · constructor
    · intro ha
      by_cases hpe : c.contact_email = unknownEmail
      · exfalso
        have hbe : (c.contact_email == unknownEmail) = true := by
          simp [hpe]
        cases hss : should_send_reminder today c
        · simp [process_contract, hp, hss] at ha
        · simp [process_contract, hp, hss, hbe] at ha
      · cases hss : should_send_reminder today c
        · exfalso
          simp [process_contract, hp, hss] at ha
        · have hdd := (should_send_iff today c).mp hss
          refine ⟨?_, hdd.2, hpe⟩
          intro hn
          have := (tierOf_eq_none_iff _).mp hn
          omega
    · intro ⟨h1, h2, h3⟩
      have hdays : days_until_expiry today c.expiry_date ≤ 30 := by
        by_contra hcon
        exact h1 ((tierOf_eq_none_iff _).mpr (by omega))
      have hss : should_send_reminder today c = true :=
        (should_send_iff today c).mpr ⟨hdays, h2⟩
      have hbe : (c.contact_email == unknownEmail) = false := by
        simp [h3]
      obtain ⟨ec, hec⟩ :=
        create_reminder_email_some c.name c.client (isoString c.expiry_date)
          _ hdays
      cases hsent : env.emailSentResult c.id <;>
      cases hrt : env.updateReminderThrows c.id <;>
        simp [process_contract, hp, hss, hbe, hec, hsent, hrt] <;>
        split_ifs <;> rfl

/-- C3 witness: the dedup rule at a concrete input — a contract whose
reminder was recorded earlier today gets no further send attempt. -/
theorem send_attempt_characterization_witness :
    (process_contract envOK today0 cSentToday).attempted_send = false :=
  (send_attempt_characterization envOK today0 cSentToday rfl).1 rfl

/-- C2: per-contract failure isolation of the sweep.  The general part: over
any snapshot, the sweep's persisted states are the pointwise results of
processing each contract alone — a modelled exception in one contract never
changes what happens to any other — and the reported count is exactly the
number of contracts whose reminder send succeeded (and was recorded; the
count increment sits after the timestamp write in the source).  The concrete
part is the spec's scenario: three eligible contracts where the second one's
repository update raises; the first and third still get reminders recorded
and the reported count is 2. -/
theorem sweep_isolates_per_contract_failures :
    (∀ (env : SweepEnv) (today : Date) (cs : List Contract),
      check_and_send_reminders env today cs =
        (cs.map fun c => (process_contract env today c).contract,
         (cs.filter fun c => (process_contract env today c).counted).length)) ∧
    (check_and_send_reminders env3 today0 [k1, k2, k3]).2 = 2 ∧
    ((check_and_send_reminders env3 today0 [k1, k2, k3]).1.map
      fun c => c.last_reminder_sent) = [some today0, none, some today0] ∧
    (process_contract env3 today0 k2).errored = true := by
  refine ⟨?_, by decide, by decide, by decide⟩
  intro env today cs
  induction cs with
  | nil => rfl
  | cons c rest ih =>
    cases h : (process_contract env today c).counted <;>
      simp [check_and_send_reminders, ih, h, List.filter_cons, Nat.add_comm]

/-- C4: the expiry-date arithmetic of `calculate_expiry_date`.  For month
units any produced date has month `(startMonth - 1 + count) mod 12 + 1`,
year `startYear + (startMonth - 1 + count) / 12` and the start's day; for
year units the year advances by the count with month and day unchanged; day
units add the count in days and week units seven times the count (any date
those units produce is exactly that sum, and it is produced whenever the
sum is a constructible date); and the spec's concrete example
`2024-02-10 + 12 months = 2025-02-10` holds. -/
theorem expiry_date_arithmetic (start : Date) (t : String) (n : Nat)
    (hv : isValidDate start = true)
    (hn : extract_number t = some n) :
    (classify_unit (lowerStr t) = TenureUnit.month →
      ∀ e : Date, calculate_expiry_date start t = some e →
        e.month = (start.month - 1 + n) % 12 + 1 ∧
        e.year = start.year + Int.ofNat ((start.month - 1 + n) / 12) ∧
        e.day = start.day) ∧
    (classify_unit (lowerStr t) = TenureUnit.year →
      ∀ e : Date, calculate_expiry_date start t = some e →
        e.year = start.year + Int.ofNat n ∧ e.month = start.month ∧
        e.day = start.day) ∧
    (classify_unit (lowerStr t) = TenureUnit.day →
      (∀ e : Date, calculate_expiry_date start t = some e →
        e = addDays start n) ∧
      (isValidDate (addDays start n) = true →
        calculate_expiry_date start t = some (addDays start n))) ∧
    (classify_unit (lowerStr t) = TenureUnit.week →
      (∀ e : Date, calculate_expiry_date start t = some e →
        e = addDays start (7 * n)) ∧
      (isValidDate (addDays start (7 * n)) = true →
        calculate_expiry_date start t = some (addDays start (7 * n)))) ∧
    calculate_expiry_date ⟨2024, 2, 10⟩ "12 months" =
      some ⟨2025, 2, 10⟩ := by
  have hm1 : 1 ≤ start.month := by
    simp only [isValidDate, Bool.and_eq_true, decide_eq_true_eq] at hv
    omega
  have harg : start.month + n - 1 = start.month - 1 + n := by omega
  refine ⟨?_, ?_, ?_, ?_, by decide⟩
  · intro hu e he
    simp only [calculate_expiry_date, hn, hu, add_months, mkDate] at he
    by_cases hval :
        isValidDate ⟨start.year + Int.ofNat ((start.month + n - 1) / 12),
          (start.month + n - 1) % 12 + 1, start.day⟩ = true
    · rw [if_pos hval] at he
      cases he
      exact ⟨by rw [harg], by rw [harg], rfl⟩
    · rw [if_neg hval] at he
      exact Option.noConfusion he
  · intro hu e he
    simp only [calculate_expiry_date, hn, hu, mkDate] at he
    by_cases hval :
        isValidDate ⟨start.year + Int.ofNat n, start.month, start.day⟩ =
          true
    · rw [if_pos hval] at he
      cases he
      exact ⟨rfl, rfl, rfl⟩
    · rw [if_neg hval] at he
      exact Option.noConfusion he
  · intro hu
    constructor
    · intro e he
      simp only [calculate_expiry_date, hn, hu, addDaysChecked] at he
      by_cases hval : isValidDate (addDays start n) = true
      · rw [if_pos hval] at he
        exact (Option.some.inj he).symm
      · rw [if_neg hval] at he
        exact Option.noConfusion he
    · intro hval
      simp [calculate_expiry_date, hn, hu, addDaysChecked, hval]
  · intro hu
    constructor
    · intro e he
      simp only [calculate_expiry_date, hn, hu, addDaysChecked] at he
      by_cases hval : isValidDate (addDays start (7 * n)) = true
      · rw [if_pos hval] at he
        exact (Option.some.inj he).symm
      · rw [if_neg hval] at he
        exact Option.noConfusion he
    · intro hval
      simp [calculate_expiry_date, hn, hu, addDaysChecked, hval]

/-- C4 witness: the concrete example, obtained from the theorem at the
spec's input. -/
theorem expiry_date_arithmetic_witness :
    calculate_expiry_date ⟨2024, 2, 10⟩ "12 months" =
      some ⟨2025, 2, 10⟩ :=
  (expiry_date_arithmetic ⟨2024, 2, 10⟩ "12 months" 12 (by decide)
    (by decide)).2.2.2.2

theorem takeWhile_append_of_all (p : Char → Bool) :
    ∀ (xs ys : List Char), (∀ x ∈ xs, p x = true) →
      (xs ++ ys).takeWhile p = xs ++ ys.takeWhile p := by
  intro xs
  induction xs with
  | nil => intro ys _; rfl
  | cons a as ih =>
    intro ys hall
    have ha : p a = true := hall a (by simp)
    simp only [List.cons_append, List.takeWhile_cons, ha, if_true]
    rw [ih ys (fun x hx => hall x (by simp [hx]))]

theorem takeWhile_eq_nil_of_head (p : Char → Bool) (ys : List Char)
    (h : ∀ ch, ys.head? = some ch → p ch = false) :
    ys.takeWhile p = [] := by
  cases ys with
  | nil => rfl
  | cons a as => simp [List.takeWhile_cons, h a rfl]

theorem firstDigitRun_eq_none_iff (l : List Char) :
    firstDigitRun l = none ↔ ∀ ch ∈ l, ch.isDigit = false := by
  induction l with
  | nil => simp [firstDigitRun]
  | cons a as ih =>
    by_cases ha : a.isDigit = true
    · simp [firstDigitRun, ha]
    · have ha' : a.isDigit = false := by
        cases h : a.isDigit
        · rfl
        · exact absurd h ha
      simp [firstDigitRun, ha', ih]

theorem firstDigitRun_spec :
    ∀ (pre ds post : List Char), (∀ ch ∈ pre, ch.isDigit = false) →
      ds ≠ [] → (∀ ch ∈ ds, ch.isDigit = true) →
      (∀ ch, post.head? = some ch → ch.isDigit = false) →
      firstDigitRun (pre ++ ds ++ post) = some ds := by
  intro pre
  induction pre with
  | nil =>
    intro ds post _ hne hds hpost
    cases ds with
    | nil => exact absurd rfl hne
    | cons d ds' =>
      have hd : d.isDigit = true := hds d (by simp)
      simp only [List.nil_append, List.cons_append, firstDigitRun, hd,
        if_true, List.append_eq]
      rw [takeWhile_append_of_all Char.isDigit ds' post
            (fun x hx => hds x (by simp [hx])),
          takeWhile_eq_nil_of_head Char.isDigit post hpost,
          List.append_nil]
  | cons a pre' ih =>
    intro ds post hpre hne hds hpost
    have ha : a.isDigit = false := hpre a (by simp)
    simp only [List.cons_append, firstDigitRun, ha, Bool.false_eq_true,
      if_false]
    exact ih ds post (fun x hx => hpre x (by simp [hx])) hne hds hpost

/-- C5: the tenure parser.  Parsing fails exactly when the string has no
digit; the first maximal run of digits anywhere in the string gives the
count; the unit is the first matching keyword family in the order year,
month, day, week, with month as the default when no family matches; and the
spec's examples hold (including the case-insensitive one and a
no-family-matches fallback). -/
theorem tenure_parsing_characterization :
    (∀ s : String, extract_number s = none ↔
      ∀ ch ∈ s.toList, ch.isDigit = false) ∧
    (∀ (pre ds post : List Char), (∀ ch ∈ pre, ch.isDigit = false) →
      ds ≠ [] → (∀ ch ∈ ds, ch.isDigit = true) →
      (∀ ch, post.head? = some ch → ch.isDigit = false) →
      extract_number (String.mk (pre ++ ds ++ post)) =
        some (digitsToNat ds)) ∧
    (∀ s : String, containsAny s yearWords = true →
      classify_unit s = TenureUnit.year) ∧
    (∀ s : String, containsAny s yearWords = false →
      containsAny s monthWords = true →
      classify_unit s = TenureUnit.month) ∧
    (∀ s : String, containsAny s yearWords = false →
      containsAny s monthWords = false → containsAny s dayWords = true →
      classify_unit s = TenureUnit.day) ∧
    (∀ s : String, containsAny s yearWords = false →
      containsAny s monthWords = false → containsAny s dayWords = false →
      containsAny s weekWords = true →
      classify_unit s = TenureUnit.week) ∧
    (∀ s : String, containsAny s yearWords = false →
      containsAny s monthWords = false → containsAny s dayWords = false →
      containsAny s weekWords = false →
      classify_unit s = TenureUnit.month) ∧
    parse_tenure "2 years" = some (2, TenureUnit.year) ∧
    parse_tenure "18 Months" = some (18, TenureUnit.month) ∧
    parse_tenure "term of 45 days" = some (45, TenureUnit.day) ∧
    parse_tenure "7 fortnights" = some (7, TenureUnit.month) ∧
    parse_tenure "no digits at all" = none := by
  refine ⟨?_, ?_, ?_, ?_, ?_, ?_, ?_, by decide, by decide, by decide,
    by decide, by decide⟩
  · intro s
    simp [extract_number, firstDigitRun_eq_none_iff]
  · intro pre ds post hpre hne hds hpost
    simp only [extract_number, String.toList]
    rw [firstDigitRun_spec pre ds post hpre hne hds hpost]
    rfl
  · intro s h
    simp [classify_unit, h]
  · intro s h1 h2
    simp [classify_unit, h1, h2]
  · intro s h1 h2 h3
    simp [classify_unit, h1, h2, h3]
  · intro s h1 h2 h3 h4
    simp [classify_unit, h1, h2, h3, h4]
  · intro s h1 h2 h3 h4
    simp [classify_unit, h1, h2, h3, h4]

/-- C5 witness: the year family applied at a concrete string. -/
theorem tenure_parsing_characterization_witness :
    classify_unit "2 years" = TenureUnit.year :=
  tenure_parsing_characterization.2.2.1 "2 years" (by decide)

/-- C6: the urgency tiers are decided in source order — at most 0 days left
is Expired, at most 7 is Critical, at most 30 is Warning, otherwise None —
no send is attempted for tier None, the subject line escalates for the
Expired and Critical tiers, and the spec's four concrete classifier
examples hold (the last one with `reminderDue` false). -/
theorem urgency_tiers_and_subject (d : Int) (nm : String) :
    ((d ≤ 0 → tierOf d = Tier.expired) ∧
      (0 < d → d ≤ 7 → tierOf d = Tier.critical) ∧
      (7 < d → d ≤ 30 → tierOf d = Tier.warning) ∧
      (30 < d → tierOf d = Tier.none)) ∧
    (∀ (env : SweepEnv) (today : Date) (c : Contract),
      tierOf (days_until_expiry today c.expiry_date) = Tier.none →
      (process_contract env today c).attempted_send = false) ∧
    (tierOf d = Tier.expired →
      reminder_subject nm d = "URGENT - Contract EXPIRED: " ++ nm) ∧
    (tierOf d = Tier.critical →
      reminder_subject nm d =
        "CRITICAL - Contract Expires in " ++ toString d ++ " days: " ++
          nm) ∧
    tierOf (days_until_expiry ⟨2025, 1, 1⟩ ⟨2025, 1, 1⟩) = Tier.expired ∧
    tierOf (days_until_expiry ⟨2025, 1, 1⟩ ⟨2025, 1, 5⟩) = Tier.critical ∧
    tierOf (days_until_expiry ⟨2025, 1, 1⟩ ⟨2025, 1, 20⟩) = Tier.warning ∧
    tierOf (days_until_expiry ⟨2025, 1, 1⟩ ⟨2025, 6, 1⟩) = Tier.none ∧
    should_send_reminder ⟨2025, 1, 1⟩ cFar = false := by
  refine ⟨⟨?_, ?_, ?_, ?_⟩, ?_, ?_, ?_, by decide, by decide, by decide,
    by decide, by decide⟩
  · intro h
    exact (tierOf_eq_expired_iff d).mpr h
  · intro h1 h2
    exact (tierOf_eq_critical_iff d).mpr ⟨h1, h2⟩
  · intro h1 h2
    exact (tierOf_eq_warning_iff d).mpr ⟨h1, h2⟩
  · intro h
    exact (tierOf_eq_none_iff d).mpr h
  · intro env today c hn
    have h30 := (tierOf_eq_none_iff _).mp hn
    have hss : should_send_reminder today c = false := by
      cases h : should_send_reminder today c
      · rfl
      · exact absurd ((should_send_iff today c).mp h).1 (by omega)
    by_cases hp : env.parseThrows c.id = true
    · simp [process_contract, hp]
    · have hp' : env.parseThrows c.id = false := by
        cases h : env.parseThrows c.id
        · rfl
        · exact absurd h hp
      simp [process_contract, hp', hss]
  · intro h
    have hd := (tierOf_eq_expired_iff d).mp h
    simp [reminder_subject, hd]
  · intro h
    have hd := (tierOf_eq_critical_iff d).mp h
    rw [reminder_subject, if_neg (by omega), if_pos hd.2]

/-- C6 witness: the escalated subject for an already-expired contract. -/
theorem urgency_tiers_and_subject_witness :
    reminder_subject "X" (-1) = "URGENT - Contract EXPIRED: X" :=
  (urgency_tiers_and_subject (-1) "X").2.2.1 (by decide)

/-- C7: when the sweep attempts a reminder (eligible, non-sentinel address)
and the repository does not raise, `last_reminder_sent` is set to today
exactly when delivery succeeded; after a delivery failure it is left
untouched, so on any later day within the 30-day window the contract is
eligible again. -/
theorem last_reminder_iff_delivery (env : SweepEnv) (today : Date)
    (c : Contract)
    (hp : env.parseThrows c.id = false)
    (hr : env.updateReminderThrows c.id = false)
    (hst : env.updateStatusThrows c.id = false)
    (hss : should_send_reminder today c = true)
    (he : c.contact_email ≠ unknownEmail) :
    ((process_contract env today c).contract.last_reminder_sent =
        some today ↔ env.emailSentResult c.id = true) ∧
    (env.emailSentResult c.id = false →
      (process_contract env today c).contract.last_reminder_sent =
        c.last_reminder_sent ∧
      (process_contract env today c).contract.expiry_date =
        c.expiry_date ∧
      ∀ tomorrow : Date, dateLt today tomorrow = true →
        days_until_expiry tomorrow c.expiry_date ≤ 30 →
        should_send_reminder tomorrow
          ((process_contract env today c).contract) = true) := by
  have hdd := (should_send_iff today c).mp hss
  have hbe : (c.contact_email == unknownEmail) = false := by
    simp [he]
  obtain ⟨ec, hec⟩ :=
    create_reminder_email_some c.name c.client (isoString c.expiry_date) _
      hdd.1
  have hlast_ne : c.last_reminder_sent ≠ some today := by
    intro hcon
    rcases hdd.2 with h | ⟨d', hd', hlt⟩
    · rw [h] at hcon
      exact Option.noConfusion hcon
    · rw [hd'] at hcon
      have hdt : d' = today := Option.some.inj hcon
      rw [hdt, dateLt_irrefl] at hlt
      exact Bool.noConfusion hlt
  cases hsent : env.emailSentResult c.id with
  | false =>
    have hres :
        (process_contract env today c).contract.last_reminder_sent =
          c.last_reminder_sent ∧
        (process_contract env today c).contract.expiry_date =
          c.expiry_date := by
      constructor <;>
        (simp [process_contract, hp, hss, hbe, hec, hsent, hst]
         split_ifs <;> rfl)
    refine ⟨?_, ?_⟩
    · rw [hres.1]
      simp [hlast_ne]
    · intro _
      refine ⟨hres.1, hres.2, ?_⟩
      intro tom hlt h30
      rw [should_send_iff]
      refine ⟨by rw [hres.2]; exact h30, ?_⟩
      rw [hres.1]
      rcases hdd.2 with h | ⟨d', hd', hlt'⟩
      · exact Or.inl h
      · exact Or.inr ⟨d', hd', dateLt_trans hlt' hlt⟩
  | true =>
    have hres :
        (process_contract env today c).contract.last_reminder_sent =
          some today := by
      simp [process_contract, hp, hss, hbe, hec, hsent, hr, hst]
      split_ifs <;> rfl
    constructor
    · simp [hres]
    · intro hcon
      exact Bool.noConfusion hcon

/-- C7 witness: after a failed delivery the timestamp is unchanged and the
contract is still eligible the next day. -/
theorem last_reminder_iff_delivery_witness :
    (process_contract envFail today0 cExpiredOK).contract.last_reminder_sent
      = cExpiredOK.last_reminder_sent ∧
    should_send_reminder ⟨2025, 1, 11⟩
      ((process_contract envFail today0 cExpiredOK).contract) = true :=
  ⟨((last_reminder_iff_delivery envFail today0 cExpiredOK rfl rfl rfl
      (by decide) (by decide)).2 rfl).1,
   ((last_reminder_iff_delivery envFail today0 cExpiredOK rfl rfl rfl
      (by decide) (by decide)).2 rfl).2.2 ⟨2025, 1, 11⟩ (by decide)
      (by decide)⟩

/-- C8: whenever the arithmetic of `calculate_expiry_date` produces a
result that is not a constructible calendar date, the function returns no
date — never a clamped or otherwise adjusted date.  For month and year
units the `date` constructor's `ValueError` is caught and `None` returned;
for day and week units the `timedelta` addition's `OverflowError` past
`date.max` is caught likewise.  Concretely, 2024-01-31 plus one month,
2024-02-29 plus one year, 9999-12-31 plus one day and 9999-12-31 plus one
week all fail. -/
theorem expiry_invalid_result_fails (start : Date) (t : String) (n : Nat)
    (hn : extract_number t = some n) :
    (classify_unit (lowerStr t) = TenureUnit.year →
      isValidDate ⟨start.year + Int.ofNat n, start.month, start.day⟩ =
        false →
      calculate_expiry_date start t = none) ∧
    (classify_unit (lowerStr t) = TenureUnit.month →
      isValidDate ⟨start.year + Int.ofNat ((start.month + n - 1) / 12),
          (start.month + n - 1) % 12 + 1, start.day⟩ = false →
      calculate_expiry_date start t = none) ∧
    (classify_unit (lowerStr t) = TenureUnit.day →
      isValidDate (addDays start n) = false →
      calculate_expiry_date start t = none) ∧
    (classify_unit (lowerStr t) = TenureUnit.week →
      isValidDate (addDays start (7 * n)) = false →
      calculate_expiry_date start t = none) ∧
    calculate_expiry_date ⟨2024, 1, 31⟩ "1 month" = none ∧
    calculate_expiry_date ⟨2024, 2, 29⟩ "1 year" = none ∧
    calculate_expiry_date ⟨9999, 12, 31⟩ "1 day" = none ∧
    calculate_expiry_date ⟨9999, 12, 31⟩ "1 week" = none := by
  refine ⟨?_, ?_, ?_, ?_, by decide, by decide, by decide, by decide⟩
  · intro hu hinv
    simp only [calculate_expiry_date, hn, hu, mkDate]
    exact if_neg (by rw [hinv]; simp)
  · intro hu hinv
    simp only [calculate_expiry_date, hn, hu, add_months, mkDate]
    exact if_neg (by rw [hinv]; simp)
  · intro hu hinv
    simp only [calculate_expiry_date, hn, hu, addDaysChecked]
    exact if_neg (by rw [hinv]; simp)
  · intro hu hinv
    simp only [calculate_expiry_date, hn, hu, addDaysChecked]
    exact if_neg (by rw [hinv]; simp)

/-- C8 witness: the concrete non-constructible case January 31 plus one
month, derived from the theorem. -/
theorem expiry_invalid_result_fails_witness :
    calculate_expiry_date ⟨2024, 1, 31⟩ "1 month" = none :=
  (expiry_invalid_result_fails ⟨2024, 1, 31⟩ "1 month" 1
    (by decide)).2.2.2.2.1

/-- C9: renewal resets the reminder epoch — status becomes `Active` and
`last_reminder_sent` becomes null whatever the prior values were — and a
sweep run on any day on which the new expiry is more than 30 days out
classifies the contract as tier None with no reminder due. -/
theorem renewal_resets_eligibility (c : Contract) (e : Date)
    (em : Option String) :
    (renew_contract c e em).status = Status.Active ∧
    (renew_contract c e em).last_reminder_sent = none ∧
    ∀ today : Date, 30 < days_until_expiry today e →
      tierOf (days_until_expiry today e) = Tier.none ∧
      should_send_reminder today (renew_contract c e em) = false := by
  refine ⟨rfl, rfl, ?_⟩
  intro today h
  refine ⟨(tierOf_eq_none_iff _).mpr h, ?_⟩
  simp [should_send_reminder, renew_contract]
  omega

/-- C9 witness: renewing a concrete contract to an expiry 387 days out
yields tier None and no reminder due on today's sweep. -/
theorem renewal_resets_eligibility_witness :
    tierOf (days_until_expiry today0 ⟨2026, 2, 1⟩) = Tier.none ∧
    should_send_reminder today0
      (renew_contract cExpiredOK ⟨2026, 2, 1⟩ none) = false :=
  (renewal_resets_eligibility cExpiredOK ⟨2026, 2, 1⟩ none).2.2 today0
    (by decide)

/-- C10: the email renderer is only defined for at most 30 days remaining —
beyond that its urgency variables are unassigned and it raises, modelled by
`none` — and the sweep never reaches that branch: on every input the
processing step's `render_failed` flag is false, because the renderer is
invoked only under the 30-day eligibility test. -/
theorem email_renderer_domain :
    (∀ (nm cl ex : String) (d : Int), 30 < d →
      create_reminder_email nm cl ex d = none) ∧
    (∀ (nm cl ex : String) (d : Int), d ≤ 30 →
      create_reminder_email nm cl ex d ≠ none) ∧
    (∀ (env : SweepEnv) (today : Date) (c : Contract),
      (process_contract env today c).render_failed = false) := by
  refine ⟨?_, ?_, ?_⟩
  · intro nm cl ex d h
    exact (create_reminder_email_none_iff nm cl ex d).mpr h
  · intro nm cl ex d h hcon
    have := (create_reminder_email_none_iff nm cl ex d).mp hcon
    omega
  · intro env today c
    by_cases hp : env.parseThrows c.id = true
    · simp [process_contract, hp]
    · have hp' : env.parseThrows c.id = false := by
        cases h : env.parseThrows c.id
        · rfl
        · exact absurd h hp
      cases hss : should_send_reminder today c with
      | false => simp [process_contract, hp', hss]
      | true =>
        have hdays := ((should_send_iff today c).mp hss).1
        obtain ⟨ec, hec⟩ :=
          create_reminder_email_some c.name c.client
            (isoString c.expiry_date) _ hdays
        by_cases hbe : (c.contact_email == unknownEmail) = true
        · simp [process_contract, hp', hss, hbe]
        · have hbe' : (c.contact_email == unknownEmail) = false := by
            cases h : c.contact_email == unknownEmail
            · rfl
            · exact absurd h hbe
          cases hsent : env.emailSentResult c.id <;>
          cases hrt : env.updateReminderThrows c.id <;>
            simp [process_contract, hp', hss, hbe', hec, hsent, hrt] <;>
            (split_ifs <;> rfl)

/-- C10 witness: the renderer raises (yields no content) at 31 days
remaining, outside the sweep's invocation window. -/
theorem email_renderer_domain_witness :
    create_reminder_email "N" "C" "D" 31 = none :=
  email_renderer_domain.1 "N" "C" "D" 31 (by decide)
